import Mathlib

/-
  Verification of the Wan Shi Tong OBJ/WebGL viewer (src/js/glbviewer.js,
  the self-contained IIFE viewer).  The mesh parser is embedded over exact
  rationals (its arithmetic is closed under ℚ); the camera layer is embedded
  over ℝ because it involves square roots (vector normalization) and the
  spherical eye derivation.  JS numeric literals are modelled as the exact
  rationals they denote.
-/

namespace WanShiTong

/-! ## Mesh parser (parseOBJ, lines 270-338 of the source) -/

/-- Parser state: the three 1-indexed attribute pools (index 0 holds the
    sentinel/default element, exactly as the source initializes
    `positions = [[0,0,0]]`, `texcoords = [[0,0]]`, `normals = [[0,0,1]]`)
    and the three flat output arrays `outPos`, `outUV`, `outNor`. -/
structure ObjState where
  positions : List (ℚ × ℚ × ℚ)
  texcoords : List (ℚ × ℚ)
  normals : List (ℚ × ℚ × ℚ)
  outPos : List ℚ
  outUV : List ℚ
  outNor : List ℚ
deriving DecidableEq

/-- Initial parser state (source lines 271-276). -/
def objInit : ObjState :=
  ⟨[(0, 0, 0)], [(0, 0)], [(0, 0, 1)], [], [], []⟩

/-- JS array read `pool[i]` for an integer index, `undefined` outside the
    stored range; `arrGet pool i dflt` models `pool[i] || dflt`
    (every stored element is a non-empty array, hence truthy). -/
def arrGet (pool : List α) (i : ℤ) (dflt : α) : α :=
  if h : 0 ≤ i ∧ i.toNat < pool.length then pool.get ⟨i.toNat, h.2⟩ else dflt

/-- `addVertex` (source lines 280-288): look the three resolved indices up in
    the pools, falling back to the defaults `[0,0,0]`, `[0,0]`, `[0,0,1]`,
    and append to the flat outputs; the texcoord is emitted vertically
    flipped (`1 - t[1]`). -/
def addVertex (st : ObjState) (v : ℤ × ℤ × ℤ) : ObjState :=
  let p := arrGet st.positions v.1 (0, 0, 0)
  let t := arrGet st.texcoords v.2.1 (0, 0)
  let n := arrGet st.normals v.2.2 (0, 0, 1)
  { st with
    outPos := st.outPos ++ [p.1, p.2.1, p.2.2]
    outUV := st.outUV ++ [t.1, 1 - t.2]
    outNor := st.outNor ++ [n.1, n.2.1, n.2.2] }

/-- Face-index resolution (source lines 308-310):
    `vi < 0 ? pool.length + vi : vi`.  `len` is the JS array length,
    i.e. one more than the number of parsed elements (the sentinel). -/
def resolveIdx (len : ℕ) (i : ℤ) : ℤ :=
  if i < 0 then (len : ℤ) + i else i

/-- Resolve one face token against the pools of the current state. -/
def resolveTok (st : ObjState) (tok : ℤ × ℤ × ℤ) : ℤ × ℤ × ℤ :=
  (resolveIdx st.positions.length tok.1,
   resolveIdx st.texcoords.length tok.2.1,
   resolveIdx st.normals.length tok.2.2)

/-- One parsed mesh-document line, modelled post-tokenization: the source
    splits each line on whitespace and each face token on `/`, defaulting a
    missing texcoord/normal field to the sentinel index 0
    (source lines 290-311).  Blank/comment/unrecognized lines are `other`.
    (The NaN-index corner produced by a face token of the form `v//` is not
    modelled; no claim depends on it.) -/
inductive ObjCmd where
  | v (x y z : ℚ)
  | vt (u w : ℚ)
  | vn (x y z : ℚ)
  | f (toks : List (ℤ × ℤ × ℤ))
  | other
deriving DecidableEq

/-- The fan-triangulation loop (source lines 313-317):
    `for (let i=1; i<verts.length-1; i++) { add(verts[0]); add(verts[i]); add(verts[i+1]); }`
    flattened into the list of vertex triples fed to `addVertex`. -/
def fanVerts (verts : List (ℤ × ℤ × ℤ)) : List (ℤ × ℤ × ℤ) :=
  (List.range' 1 (verts.length - 2)).flatMap
    fun i => [verts.getD 0 (0, 0, 0), verts.getD i (0, 0, 0), verts.getD (i + 1) (0, 0, 0)]

/-- Processing one mesh-document line (the dispatch of source lines 290-319). -/
def processCmd (st : ObjState) : ObjCmd → ObjState
  | .v x y z => { st with positions := st.positions ++ [(x, y, z)] }
  | .vt u w => { st with texcoords := st.texcoords ++ [(u, w)] }
  | .vn x y z => { st with normals := st.normals ++ [(x, y, z)] }
  | .f toks => (fanVerts (toks.map (resolveTok st))).foldl addVertex st
  | .other => st

/-- Run the parser over a whole document. -/
def runOBJ (doc : List ObjCmd) : ObjState :=
  doc.foldl processCmd objInit

/-- Number of `v` directives in a document (the number of parsed positions). -/
def countV (doc : List ObjCmd) : ℕ :=
  (doc.filter fun c => match c with | .v _ _ _ => true | _ => false).length

/-- Group the flat position array into (x,y,z) triples, as the bounds loop
    (source lines 323-327) walks it with stride 3. -/
def triplesOf : List ℚ → List (ℚ × ℚ × ℚ)
  | x :: y :: z :: rest => (x, y, z) :: triplesOf rest
  | _ => []

/-- `Math.min` against an accumulator that starts at `Infinity`; the
    not-yet-updated accumulator (`Infinity`) is modelled as `none`. -/
def minAcc (acc : Option ℚ) (x : ℚ) : Option ℚ :=
  match acc with
  | none => some x
  | some m => some (min m x)

/-- `Math.max` against an accumulator that starts at `-Infinity`. -/
def maxAcc (acc : Option ℚ) (x : ℚ) : Option ℚ :=
  match acc with
  | none => some x
  | some m => some (max m x)

/-- One step of the bounds loop (source lines 322-327): update the six
    min/max accumulators with one position triple. -/
def boundsStep (acc : (Option ℚ × Option ℚ × Option ℚ) × (Option ℚ × Option ℚ × Option ℚ))
    (t : ℚ × ℚ × ℚ) :
    (Option ℚ × Option ℚ × Option ℚ) × (Option ℚ × Option ℚ × Option ℚ) :=
  ((minAcc acc.1.1 t.1, minAcc acc.1.2.1 t.2.1, minAcc acc.1.2.2 t.2.2),
   (maxAcc acc.2.1 t.1, maxAcc acc.2.2.1 t.2.1, maxAcc acc.2.2.2 t.2.2))

/-- The record returned by `parseOBJ` (source lines 332-337); the typed
    arrays are modelled by the flat rational lists. -/
structure ObjMesh where
  position : List ℚ
  normal : List ℚ
  uv : List ℚ
  center : ℚ × ℚ × ℚ
  radius : ℚ
deriving DecidableEq

/-- The whole bounds loop over the flat position array. -/
def boundsOf (l : List ℚ) :
    (Option ℚ × Option ℚ × Option ℚ) × (Option ℚ × Option ℚ × Option ℚ) :=
  (triplesOf l).foldl boundsStep ((none, none, none), (none, none, none))

/-- `parseOBJ` (source lines 270-338): run the line loop, then compute the
    bounding box, center and radius.  For an empty mesh the JS code produces
    NaN center components (Infinity - Infinity); the model extracts the
    finite bound with default 0 there — no claim concerns empty meshes.
    `x || 1` on the radius is modelled as replacing 0 by 1. -/
def parseOBJ (doc : List ObjCmd) : ObjMesh :=
  let st := runOBJ doc
  let b := boundsOf st.outPos
  let minX := b.1.1.getD 0
  let minY := b.1.2.1.getD 0
  let minZ := b.1.2.2.getD 0
  let maxX := b.2.1.getD 0
  let maxY := b.2.2.1.getD 0
  let maxZ := b.2.2.2.getD 0
  let center := ((minX + maxX) / 2, (minY + maxY) / 2, (minZ + maxZ) / 2)
  let size := (maxX - minX, maxY - minY, maxZ - minZ)
  let r0 := max size.1 (max size.2.1 size.2.2) * 0.6
  let radius := if r0 = 0 then 1 else r0
  ⟨st.outPos, st.outNor, st.outUV, center, radius⟩

/-! ## Linear algebra layer (source lines 178-187), over ℝ -/

/-- 3-component vectors, as the source's 3-element arrays. -/
abbrev RVec3 := ℝ × ℝ × ℝ

noncomputable def vec3Add (a b : RVec3) : RVec3 :=
  (a.1 + b.1, a.2.1 + b.2.1, a.2.2 + b.2.2)

noncomputable def vec3Sub (a b : RVec3) : RVec3 :=
  (a.1 - b.1, a.2.1 - b.2.1, a.2.2 - b.2.2)

noncomputable def vec3Scale (a : RVec3) (s : ℝ) : RVec3 :=
  (a.1 * s, a.2.1 * s, a.2.2 * s)

noncomputable def vec3Cross (a b : RVec3) : RVec3 :=
  (a.2.1 * b.2.2 - a.2.2 * b.2.1, a.2.2 * b.1 - a.1 * b.2.2, a.1 * b.2.1 - a.2.1 * b.1)

/-- `Math.hypot(v[0], v[1], v[2])`: the Euclidean length. -/
noncomputable def hypot3 (v : RVec3) : ℝ :=
  Real.sqrt (v.1 ^ 2 + v.2.1 ^ 2 + v.2.2 ^ 2)

/-- The `l` of `vec3Normalize` (source line 179): `Math.hypot(...) || 1`,
    i.e. a zero length is replaced by 1. -/
noncomputable def normLen (v : RVec3) : ℝ :=
  if hypot3 v = 0 then 1 else hypot3 v

/-- `vec3Normalize` (source lines 178-181). -/
noncomputable def vec3Normalize (v : RVec3) : RVec3 :=
  (v.1 / normLen v, v.2.1 / normLen v, v.2.2 / normLen v)

/-! ## Orbit camera and interaction controller (source lines 473-571)

The interaction handlers mutate a `camera` object (fields `theta`, `phi`,
`distance`, `target`, `up`, `eye` and a method `updateEye`) whose definition
does not appear in the source file; it is modelled below from spec §4.5. -/

structure Camera where
  theta : ℝ
  phi : ℝ
  distance : ℝ
  target : RVec3
  up : RVec3
  eye : RVec3

/-- Modelled from the spec: §4.5 "eyePosition() derives the eye from
    spherical coordinates around target" — the unit direction at azimuth
    `theta` and polar angle `phi` with the y axis up (matching the
    `up = [0,1,0]` used by the source's view matrix). -/
noncomputable def sphericalDir (theta phi : ℝ) : RVec3 :=
  (Real.sin phi * Real.cos theta, Real.cos phi, Real.sin phi * Real.sin theta)

/-- Modelled from the spec: `camera.updateEye()` re-derives the eye from the
    current spherical coordinates around the current target. -/
noncomputable def updateEye (c : Camera) : Camera :=
  { c with eye := vec3Add c.target (vec3Scale (sphericalDir c.theta c.phi) c.distance) }

/-- `rotSpeed` (source line 518). -/
noncomputable def rotSpeed : ℝ := 0.006

/-- `panSpeed` (source line 519): `0.0025 * camera.distance`. -/
noncomputable def panSpeed (c : Camera) : ℝ := 0.0025 * c.distance

/-- The rotate branch of `movePointer` (source lines 521-526):
    `theta -= dx*rotSpeed; phi -= dy*rotSpeed;
     phi = Math.max(0.12, Math.min(Math.PI - 0.12, phi)); updateEye()`. -/
noncomputable def rotateStep (c : Camera) (dx dy : ℝ) : Camera :=
  updateEye
    { c with
      theta := c.theta - dx * rotSpeed
      phi := max 0.12 (min (Real.pi - 0.12) (c.phi - dy * rotSpeed)) }

/-- The pan branch of `movePointer` (source lines 527-538). -/
noncomputable def panStep (c : Camera) (dx dy : ℝ) : Camera :=
  let right := vec3Normalize (vec3Cross c.eye c.up)
  let upN := vec3Normalize c.up
  let moveRight := vec3Scale right (-dx * panSpeed c)
  let moveUp := vec3Scale upN (dy * panSpeed c)
  updateEye { c with target := vec3Add c.target (vec3Add moveRight moveUp) }

/-- The wheel handler (source lines 563-571): multiply the distance by 1.08
    (wheel down, `sign(deltaY) > 0`, zoom out) or 0.92 (zoom in), then clamp
    to [0.6, 12] and re-derive the eye. -/
noncomputable def wheelStep (c : Camera) (deltaY : ℝ) : Camera :=
  updateEye
    { c with
      distance := max 0.6 (min 12 (c.distance * if 0 < deltaY then 1.08 else 0.92)) }

/-- Interaction-controller state (source lines 485-489) plus the camera. -/
structure ViewerState where
  activePointerId : Option ℤ
  isDragging : Bool
  isPanning : Bool
  lastX : ℝ
  lastY : ℝ
  camera : Camera

/-- `beginPointer` (source lines 491-508): ignore a second pointer; classify
    the gesture as pan (button 2 or Shift) or rotate; record the start
    coordinates. -/
noncomputable def beginPointer (st : ViewerState) (pointerId : ℤ) (button : ℤ)
    (shiftKey : Bool) (clientX clientY : ℝ) : ViewerState :=
  if st.activePointerId ≠ none then st
  else
    { st with
      activePointerId := some pointerId
      isPanning := (button == 2) || shiftKey
      isDragging := !((button == 2) || shiftKey)
      lastX := clientX
      lastY := clientY }

/-- `movePointer` (source lines 510-541): the source proceeds unless
    `activePointerId === null || e.pointerId !== activePointerId`,
    i.e. exactly when the active pointer id equals the event's id. -/
noncomputable def movePointer (st : ViewerState) (pointerId : ℤ) (clientX clientY : ℝ) :
    ViewerState :=
  if st.activePointerId = some pointerId then
    let dx := clientX - st.lastX
    let dy := clientY - st.lastY
    let st1 := { st with lastX := clientX, lastY := clientY }
    if st.isDragging then { st1 with camera := rotateStep st.camera dx dy }
    else if st.isPanning then { st1 with camera := panStep st.camera dx dy }
    else st1
  else st

/-- The emitted-length invariant: the three flat outputs always hold
    9k / 6k / 9k scalars for a common triangle count k. -/
def lengthInv (st : ObjState) : Prop :=
  ∃ k, st.outPos.length = 9 * k ∧ st.outNor.length = 9 * k ∧ st.outUV.length = 6 * k

/-- The concrete camera used in the C7 scenarios: azimuth 0, polar angle
    π/2, distance 1, so the eye (1,0,0) agrees with the spherical
    derivation around the target (0,0,0). -/
noncomputable def panCam : Camera :=
  ⟨0, Real.pi / 2, 1, (0, 0, 0), (0, 1, 0), (1, 0, 0)⟩

/-! ## Helper lemmas about the parser -/

lemma addVertex_outPos_length (st : ObjState) (v : ℤ × ℤ × ℤ) :
    (addVertex st v).outPos.length = st.outPos.length + 3 := by
  simp [addVertex]

lemma addVertex_outUV_length (st : ObjState) (v : ℤ × ℤ × ℤ) :
    (addVertex st v).outUV.length = st.outUV.length + 2 := by
  simp [addVertex]

lemma addVertex_outNor_length (st : ObjState) (v : ℤ × ℤ × ℤ) :
    (addVertex st v).outNor.length = st.outNor.length + 3 := by
  simp [addVertex]

lemma addVertex_pools (st : ObjState) (v : ℤ × ℤ × ℤ) :
    (addVertex st v).positions = st.positions ∧ (addVertex st v).texcoords = st.texcoords ∧
      (addVertex st v).normals = st.normals := by
  simp [addVertex]

lemma foldl_addVertex_lengths (vs : List (ℤ × ℤ × ℤ)) : ∀ st : ObjState,
    (vs.foldl addVertex st).outPos.length = st.outPos.length + 3 * vs.length ∧
    (vs.foldl addVertex st).outUV.length = st.outUV.length + 2 * vs.length ∧
    (vs.foldl addVertex st).outNor.length = st.outNor.length + 3 * vs.length := by
  induction vs with
  | nil => intro st; simp
  | cons v vs ih =>
    intro st
    obtain ⟨h1, h2, h3⟩ := ih (addVertex st v)
    refine ⟨?_, ?_, ?_⟩ <;>
      simp [List.foldl_cons, h1, h2, h3, addVertex_outPos_length, addVertex_outUV_length,
        addVertex_outNor_length] <;> ring

lemma foldl_addVertex_pools (vs : List (ℤ × ℤ × ℤ)) : ∀ st : ObjState,
    (vs.foldl addVertex st).positions = st.positions ∧
    (vs.foldl addVertex st).texcoords = st.texcoords ∧
    (vs.foldl addVertex st).normals = st.normals := by
  induction vs with
  | nil => intro st; simp
  | cons v vs ih =>
    intro st
    obtain ⟨h1, h2, h3⟩ := ih (addVertex st v)
    rw [List.foldl_cons]
    exact ⟨h1.trans (addVertex_pools st v).1, h2.trans (addVertex_pools st v).2.1,
      h3.trans (addVertex_pools st v).2.2⟩

lemma flatMap_const3_length (l : List ℕ) (f : ℕ → List (ℤ × ℤ × ℤ))
    (hf : ∀ i, (f i).length = 3) : (l.flatMap f).length = 3 * l.length := by
  induction l with
  | nil => simp
  | cons a l ih => simp [List.flatMap_cons, ih, hf]; ring

lemma fanVerts_length (vs : List (ℤ × ℤ × ℤ)) :
    (fanVerts vs).length = 3 * (vs.length - 2) := by
  unfold fanVerts
  rw [flatMap_const3_length _ _ (fun i => by simp), List.length_range']

lemma lengthInv_processCmd (st : ObjState) (c : ObjCmd) (h : lengthInv st) :
    lengthInv (processCmd st c) := by
  obtain ⟨k, h1, h2, h3⟩ := h
  cases c with
  | v x y z => exact ⟨k, by simp [processCmd, h1, h2, h3]⟩
  | vt u w => exact ⟨k, by simp [processCmd, h1, h2, h3]⟩
  | vn x y z => exact ⟨k, by simp [processCmd, h1, h2, h3]⟩
  | other => exact ⟨k, by simp [processCmd, h1, h2, h3]⟩
  | f toks =>
    refine ⟨k + (toks.length - 2), ?_, ?_, ?_⟩ <;>
    · obtain ⟨g1, g2, g3⟩ :=
        foldl_addVertex_lengths (fanVerts (toks.map (resolveTok st))) st
      simp [processCmd, g1, g2, g3, h1, h2, h3, fanVerts_length]
      ring

lemma lengthInv_runOBJ (doc : List ObjCmd) : lengthInv (runOBJ doc) := by
  suffices h : ∀ st, lengthInv st → lengthInv (doc.foldl processCmd st) from
    h objInit ⟨0, by simp [objInit]⟩
  induction doc with
  | nil => intro st h; simpa using h
  | cons c doc ih => intro st h; exact ih _ (lengthInv_processCmd st c h)

/-! ## Claim C1 -/

/-- Claim C1: for every mesh document, the emitted flat arrays satisfy
    `position.length = normal.length`, `position.length/3 = uv.length/2`
    (one entry per emitted vertex), and the emitted vertex count
    `position.length/3` is an exact multiple of 3 (three vertices per
    triangle), i.e. the lengths are 9k/9k/6k for the triangle count k. -/
theorem c1_emitted_lengths_aligned (doc : List ObjCmd) :
    (∃ k, (runOBJ doc).outPos.length = 9 * k ∧ (runOBJ doc).outNor.length = 9 * k ∧
        (runOBJ doc).outUV.length = 6 * k) ∧
    (runOBJ doc).outPos.length / 3 = (runOBJ doc).outNor.length / 3 ∧
    (runOBJ doc).outPos.length / 3 = (runOBJ doc).outUV.length / 2 ∧
    3 ∣ (runOBJ doc).outPos.length / 3 := by
  obtain ⟨k, h1, h2, h3⟩ := lengthInv_runOBJ doc
  refine ⟨⟨k, h1, h2, h3⟩, ?_, ?_, ?_⟩
  · rw [h1, h2]
  · rw [h1, h3]
    omega
  · rw [h1]
    omega

lemma flatMap_fan_get (a : ℤ × ℤ × ℤ) (g : ℕ → ℤ × ℤ × ℤ) :
    ∀ (m s j : ℕ), j < m →
      ((List.range' s m).flatMap fun i => [a, g i, g (i + 1)]).get? (3 * j) = some a ∧
      ((List.range' s m).flatMap fun i => [a, g i, g (i + 1)]).get? (3 * j + 1) = some (g (s + j)) ∧
      ((List.range' s m).flatMap fun i => [a, g i, g (i + 1)]).get? (3 * j + 2) = some (g (s + j + 1)) := by
  intro m
  induction m with
  | zero => intro s j hj; omega
  | succ m ih =>
    intro s j hj
    rw [List.range'_succ, List.flatMap_cons]
    cases j with
    | zero => simp
    | succ j =>
      have e0 : 3 * (j + 1) = 3 * j + 1 + 1 + 1 := by ring
      have e1 : 3 * (j + 1) + 1 = 3 * j + 1 + 1 + 1 + 1 := by ring
      have e2 : 3 * (j + 1) + 2 = 3 * j + 2 + 1 + 1 + 1 := by ring
      obtain ⟨g0, g1, g2⟩ := ih (s + 1) j (by omega)
      refine ⟨?_, ?_, ?_⟩
      · rw [e0]; simpa using g0
      · rw [e1]
        simpa [show s + 1 + j = s + (j + 1) by ring] using g1
      · rw [e2]
        simpa [show s + 1 + j + 1 = s + (j + 1) + 1 by ring] using g2

lemma get?_eq_some_getD (l : List α) (n : ℕ) (d : α) (h : n < l.length) :
    l.get? n = some (l.getD n d) := by
  rw [List.getD_eq_get?, List.get?_eq_get h]
  rfl

/-! ## Claim C2 -/

/-- Claim C2: a face directive with N vertices (N ≥ 3) emits exactly N-2
    triangles (9·(N-2) position scalars), and the j-th emitted triangle is
    (v0, v(j+1), v(j+2)) — fan triangulation from the first vertex; for
    N = 3 this is exactly one triangle. -/
theorem c2_face_fan_triangulation (st : ObjState) (toks : List (ℤ × ℤ × ℤ))
    (h : 3 ≤ toks.length) :
    (processCmd st (.f toks)).outPos.length = st.outPos.length + 9 * (toks.length - 2) ∧
    (fanVerts (toks.map (resolveTok st))).length = 3 * (toks.length - 2) ∧
    ∀ j, j < toks.length - 2 →
      (fanVerts (toks.map (resolveTok st))).get? (3 * j) = (toks.map (resolveTok st)).get? 0 ∧
      (fanVerts (toks.map (resolveTok st))).get? (3 * j + 1) = (toks.map (resolveTok st)).get? (j + 1) ∧
      (fanVerts (toks.map (resolveTok st))).get? (3 * j + 2) = (toks.map (resolveTok st)).get? (j + 2) := by
  set vs := toks.map (resolveTok st) with hvs
  have hlen : vs.length = toks.length := by simp [hvs]
  refine ⟨?_, ?_, ?_⟩
  · have := (foldl_addVertex_lengths (fanVerts vs) st).1
    rw [processCmd, ← hvs, this, fanVerts_length, hlen]
    ring
  · rw [fanVerts_length, hlen]
  · intro j hj
    obtain ⟨g0, g1, g2⟩ := flatMap_fan_get (vs.getD 0 (0, 0, 0)) (fun i => vs.getD i (0, 0, 0))
      (vs.length - 2) 1 j (by omega)
    refine ⟨?_, ?_, ?_⟩
    · rw [fanVerts, g0, get?_eq_some_getD vs 0 (0, 0, 0) (by omega)]
    · rw [fanVerts, g1, get?_eq_some_getD vs (j + 1) (0, 0, 0) (by omega),
        show 1 + j = j + 1 by ring]
    · rw [fanVerts, g2, get?_eq_some_getD vs (j + 2) (0, 0, 0) (by omega),
        show 1 + j + 1 = j + 2 by ring]

/-- Witness for C2 at the triangular face `f 1 2 3`: one triangle,
    nine position scalars emitted. -/
theorem c2_face_fan_triangulation_witness :
    3 ≤ ([((1:ℤ), (0:ℤ), (0:ℤ)), (2, 0, 0), (3, 0, 0)]).length ∧
    (processCmd objInit (.f [(1, 0, 0), (2, 0, 0), (3, 0, 0)])).outPos.length
      = objInit.outPos.length + 9 * (([((1:ℤ), (0:ℤ), (0:ℤ)), (2, 0, 0), (3, 0, 0)]).length - 2) :=
  ⟨by decide, (c2_face_fan_triangulation objInit [(1, 0, 0), (2, 0, 0), (3, 0, 0)] (by decide)).1⟩

/-! ## Claim C3 -/

lemma foldl_positions_length (cmds : List ObjCmd) : ∀ st : ObjState,
    (cmds.foldl processCmd st).positions.length = st.positions.length + countV cmds := by
  induction cmds with
  | nil => intro st; simp [countV]
  | cons c cmds ih =>
    intro st
    rw [List.foldl_cons, ih]
    cases c with
    | v x y z => simp [processCmd, countV, List.filter_cons]; ring
    | vt u w => simp [processCmd, countV, List.filter_cons]
    | vn x y z => simp [processCmd, countV, List.filter_cons]
    | other => simp [processCmd, countV, List.filter_cons]
    | f toks =>
      have := (foldl_addVertex_pools (fanVerts (toks.map (resolveTok st))) st).1
      simp [processCmd, countV, List.filter_cons, this]

/-- Claim C3: negative face indices resolve against the JS pool length,
    which is L+1 for L parsed elements (index 0 is the sentinel), so a
    negative index i resolves to the 1-based index L+1+i; in particular,
    with L = 5 parsed elements, index -1 resolves to element 5. -/
theorem c3_negative_index_resolution :
    (∀ (L : ℕ) (i : ℤ), i < 0 → resolveIdx (L + 1) i = (L : ℤ) + 1 + i) ∧
    (∀ doc : List ObjCmd, (runOBJ doc).positions.length = 1 + countV doc) ∧
    resolveIdx (5 + 1) (-1) = 5 := by
  refine ⟨?_, ?_, ?_⟩
  · intro L i hi
    rw [resolveIdx, if_pos hi]
    push_cast
    ring
  · intro doc
    rw [runOBJ, foldl_positions_length]
    simp [objInit]
  · decide

/-- Witness for C3 at L = 5, i = -1. -/
theorem c3_negative_index_resolution_witness :
    (-1 : ℤ) < 0 ∧ resolveIdx (5 + 1) (-1) = (5 : ℤ) + 1 + -1 :=
  ⟨by decide, c3_negative_index_resolution.1 5 (-1) (by decide)⟩

/-! ## Claim C4 (corrected: the code computes the axis-aligned bounding-box
    center (0.5, 0.5, 0), not the vertex centroid (0.33, 0.33, 0)) -/

/-- Counterexample to C4 as stated: the scenario document produces bounding
    box center (0.5, 0.5, 0), which is neither (0.33, 0.33, 0) nor
    (1/3, 1/3, 0). -/
theorem c4_center_counterexample :
    (parseOBJ [.v 0 0 0, .v 1 0 0, .v 0 1 0, .f [(1, 0, 0), (2, 0, 0), (3, 0, 0)]]).center
      = (1/2, 1/2, 0) ∧
    (parseOBJ [.v 0 0 0, .v 1 0 0, .v 0 1 0, .f [(1, 0, 0), (2, 0, 0), (3, 0, 0)]]).center
      ≠ (0.33, 0.33, 0) ∧
    (parseOBJ [.v 0 0 0, .v 1 0 0, .v 0 1 0, .f [(1, 0, 0), (2, 0, 0), (3, 0, 0)]]).center
      ≠ (1/3, 1/3, 0) := by
  have hb : boundsOf (runOBJ [.v 0 0 0, .v 1 0 0, .v 0 1 0,
      .f [(1, 0, 0), (2, 0, 0), (3, 0, 0)]]).outPos
      = ((some 0, some 0, some 0), (some 1, some 1, some 0)) := by decide
  refine ⟨?_, ?_, ?_⟩ <;> simp only [parseOBJ, hb] <;> norm_num [Prod.ext_iff]

/-- Claim C4 amended: the scenario document parses to exactly one triangle
    (nine position scalars), bounding-box center (0.5, 0.5, 0) and radius
    0.6 > 0. -/
theorem c4_scenario_amended :
    (parseOBJ [.v 0 0 0, .v 1 0 0, .v 0 1 0, .f [(1, 0, 0), (2, 0, 0), (3, 0, 0)]]).position.length
      = 9 ∧
    (parseOBJ [.v 0 0 0, .v 1 0 0, .v 0 1 0, .f [(1, 0, 0), (2, 0, 0), (3, 0, 0)]]).center
      = (1/2, 1/2, 0) ∧
    (parseOBJ [.v 0 0 0, .v 1 0 0, .v 0 1 0, .f [(1, 0, 0), (2, 0, 0), (3, 0, 0)]]).radius
      = 3/5 ∧
    0 < (parseOBJ [.v 0 0 0, .v 1 0 0, .v 0 1 0, .f [(1, 0, 0), (2, 0, 0), (3, 0, 0)]]).radius := by
  have hb : boundsOf (runOBJ [.v 0 0 0, .v 1 0 0, .v 0 1 0,
      .f [(1, 0, 0), (2, 0, 0), (3, 0, 0)]]).outPos
      = ((some 0, some 0, some 0), (some 1, some 1, some 0)) := by decide
  refine ⟨?_, ?_, ?_, ?_⟩
  · simp only [parseOBJ]
    decide
  · simp only [parseOBJ, hb]
    norm_num
  · simp only [parseOBJ, hb]
    norm_num
  · simp only [parseOBJ, hb]
    norm_num

/-! ## Claim C10 -/

lemma arrGet_out_of_pool (pool : List α) (d : α) (i : ℤ) (h0 : pool.get? 0 = some d)
    (h : i ≤ 0 ∨ (pool.length : ℤ) ≤ i) : arrGet pool i d = d := by
  have hpos : 0 < pool.length := by
    by_contra hc
    rw [List.get?_eq_none.2 (by omega)] at h0
    exact Option.noConfusion h0
  rcases h with h | h
  · rcases lt_or_eq_of_le h with hlt | heq
    · rw [arrGet, dif_neg]
      rintro ⟨h1, -⟩
      omega
    · subst heq
      rw [arrGet, dif_pos ⟨le_refl 0, by simpa using hpos⟩]
      have h0' := List.get?_eq_get (show 0 < pool.length from hpos)
      rw [h0'] at h0
      exact Option.some_injective _ h0
  · rw [arrGet, dif_neg]
    rintro ⟨h1, h2⟩
    omega

lemma get?_zero_append (l : List α) (x d : α) (hd : l.get? 0 = some d) :
    (l ++ [x]).get? 0 = some d := by
  have hpos : 0 < l.length := by
    by_contra hc
    rw [List.get?_eq_none.2 (by omega)] at hd
    exact Option.noConfusion hd
  rw [List.get?_append hpos, hd]

lemma runOBJ_sentinels (doc : List ObjCmd) :
    (runOBJ doc).positions.get? 0 = some (0, 0, 0) ∧
    (runOBJ doc).texcoords.get? 0 = some (0, 0) ∧
    (runOBJ doc).normals.get? 0 = some (0, 0, 1) := by
  suffices h : ∀ st : ObjState,
      st.positions.get? 0 = some (0, 0, 0) → st.texcoords.get? 0 = some (0, 0) →
      st.normals.get? 0 = some (0, 0, 1) →
      (doc.foldl processCmd st).positions.get? 0 = some (0, 0, 0) ∧
      (doc.foldl processCmd st).texcoords.get? 0 = some (0, 0) ∧
      (doc.foldl processCmd st).normals.get? 0 = some (0, 0, 1) from
    h objInit (by decide) (by decide) (by decide)
  induction doc with
  | nil => intro st h1 h2 h3; exact ⟨h1, h2, h3⟩
  | cons c cmds ih =>
    intro st h1 h2 h3
    rw [List.foldl_cons]
    cases c with
    | v x y z => exact ih _ (by rw [processCmd]; exact get?_zero_append _ _ _ h1) h2 h3
    | vt u w => exact ih _ h1 (by rw [processCmd]; exact get?_zero_append _ _ _ h2) h3
    | vn x y z => exact ih _ h1 h2 (by rw [processCmd]; exact get?_zero_append _ _ _ h3)
    | other => exact ih _ h1 h2 h3
    | f toks =>
      obtain ⟨p1, p2, p3⟩ := foldl_addVertex_pools (fanVerts (toks.map (resolveTok st))) st
      exact ih _ (by rw [processCmd, p1]; exact h1) (by rw [processCmd, p2]; exact h2)
        (by rw [processCmd, p3]; exact h3)

/-- Claim C10: in any reachable parser state, a face-vertex reference whose
    resolved index is absent from its pool (sentinel 0, negative below 1, or
    beyond the pool length) makes `addVertex` emit the fixed defaults:
    position (0,0,0), texcoord (0,0) stored flipped as (0,1), and normal
    (0,0,1). -/
theorem c10_default_emission (doc : List ObjCmd) (vi ti ni : ℤ)
    (hv : vi ≤ 0 ∨ ((runOBJ doc).positions.length : ℤ) ≤ vi)
    (ht : ti ≤ 0 ∨ ((runOBJ doc).texcoords.length : ℤ) ≤ ti)
    (hn : ni ≤ 0 ∨ ((runOBJ doc).normals.length : ℤ) ≤ ni) :
    addVertex (runOBJ doc) (vi, ti, ni) =
      { runOBJ doc with
          outPos := (runOBJ doc).outPos ++ [0, 0, 0],
          outUV := (runOBJ doc).outUV ++ [0, 1],
          outNor := (runOBJ doc).outNor ++ [0, 0, 1] } := by
  obtain ⟨s1, s2, s3⟩ := runOBJ_sentinels doc
  have a1 := arrGet_out_of_pool _ _ _ s1 hv
  have a2 := arrGet_out_of_pool _ _ _ s2 ht
  have a3 := arrGet_out_of_pool _ _ _ s3 hn
  rw [addVertex]
  simp only [a1, a2, a3]
  norm_num

/-- Witness for C10: in the initial state, the unresolvable reference
    (7, -1, 0) emits exactly the three defaults. -/
theorem c10_default_emission_witness :
    ((7:ℤ) ≤ 0 ∨ ((runOBJ ([] : List ObjCmd)).positions.length : ℤ) ≤ 7) ∧
    ((-1:ℤ) ≤ 0 ∨ ((runOBJ ([] : List ObjCmd)).texcoords.length : ℤ) ≤ -1) ∧
    ((0:ℤ) ≤ 0 ∨ ((runOBJ ([] : List ObjCmd)).normals.length : ℤ) ≤ 0) ∧
    addVertex (runOBJ []) (7, -1, 0) =
      { runOBJ ([] : List ObjCmd) with
          outPos := (runOBJ ([] : List ObjCmd)).outPos ++ [0, 0, 0],
          outUV := (runOBJ ([] : List ObjCmd)).outUV ++ [0, 1],
          outNor := (runOBJ ([] : List ObjCmd)).outNor ++ [0, 0, 1] } :=
  ⟨Or.inr (by decide), Or.inl (by decide), Or.inl (by decide),
    c10_default_emission [] 7 (-1) 0 (Or.inr (by decide)) (Or.inl (by decide))
      (Or.inl (by decide))⟩

/-! ### Projection lemmas for the camera operations -/

lemma rotateStep_theta (c : Camera) (dx dy : ℝ) :
    (rotateStep c dx dy).theta = c.theta - dx * rotSpeed := rfl

lemma rotateStep_phi (c : Camera) (dx dy : ℝ) :
    (rotateStep c dx dy).phi = max 0.12 (min (Real.pi - 0.12) (c.phi - dy * rotSpeed)) := rfl

lemma rotateStep_target (c : Camera) (dx dy : ℝ) :
    (rotateStep c dx dy).target = c.target := rfl

lemma panStep_theta (c : Camera) (dx dy : ℝ) : (panStep c dx dy).theta = c.theta := rfl

lemma panStep_phi (c : Camera) (dx dy : ℝ) : (panStep c dx dy).phi = c.phi := rfl

lemma panStep_distance (c : Camera) (dx dy : ℝ) : (panStep c dx dy).distance = c.distance := rfl

lemma panStep_up (c : Camera) (dx dy : ℝ) : (panStep c dx dy).up = c.up := rfl

lemma panStep_target (c : Camera) (dx dy : ℝ) :
    (panStep c dx dy).target =
      vec3Add c.target
        (vec3Add (vec3Scale (vec3Normalize (vec3Cross c.eye c.up)) (-dx * panSpeed c))
          (vec3Scale (vec3Normalize c.up) (dy * panSpeed c))) := rfl

lemma panStep_eye (c : Camera) (dx dy : ℝ) :
    (panStep c dx dy).eye =
      vec3Add (panStep c dx dy).target
        (vec3Scale (sphericalDir c.theta c.phi) c.distance) := rfl

lemma wheelStep_distance (c : Camera) (deltaY : ℝ) :
    (wheelStep c deltaY).distance =
      max 0.6 (min 12 (c.distance * if 0 < deltaY then 1.08 else 0.92)) := rfl

/-! ## Claim C9 -/

lemma hypot3_eq_zero_iff (v : RVec3) : hypot3 v = 0 ↔ v = (0, 0, 0) := by
  obtain ⟨x, y, z⟩ := v
  rw [hypot3, Real.sqrt_eq_zero']
  constructor
  · intro h
    simp only [Prod.mk.injEq]
    refine ⟨?_, ?_, ?_⟩ <;> nlinarith [sq_nonneg x, sq_nonneg y, sq_nonneg z]
  · rintro h
    simp only [Prod.mk.injEq] at h
    obtain ⟨rfl, rfl, rfl⟩ := h
    norm_num

lemma normLen_ne_zero (v : RVec3) : normLen v ≠ 0 := by
  rw [normLen]
  split
  · exact one_ne_zero
  · assumption

/-- Claim C9: `vec3Normalize` is total — the divisor `l` is never zero;
    the zero vector normalizes to itself (length substituted by 1), and a
    nonzero vector is divided by its Euclidean length `hypot3`. -/
theorem c9_normalize_total :
    (∀ v : RVec3, normLen v ≠ 0) ∧
    vec3Normalize (0, 0, 0) = (0, 0, 0) ∧
    (∀ v : RVec3, v ≠ (0, 0, 0) →
      vec3Normalize v = (v.1 / hypot3 v, v.2.1 / hypot3 v, v.2.2 / hypot3 v)) := by
  refine ⟨normLen_ne_zero, ?_, ?_⟩
  · rw [vec3Normalize, normLen]
    rw [if_pos ((hypot3_eq_zero_iff (0, 0, 0)).2 rfl)]
    norm_num
  · intro v hv
    have h : hypot3 v ≠ 0 := fun h => hv ((hypot3_eq_zero_iff v).1 h)
    rw [vec3Normalize, normLen, if_neg h]

/-! ## Claim C5 (corrected: the clamp keeps phi in the CLOSED interval
    [0.12, π - 0.12]; a large enough deltaY drives phi to exactly 0.12,
    leaving the open interval (0.12, π - 0.12)) -/

lemma rotateStep_phi_bounds (c : Camera) (dx dy : ℝ) :
    0.12 ≤ (rotateStep c dx dy).phi ∧ (rotateStep c dx dy).phi ≤ Real.pi - 0.12 := by
  rw [rotateStep_phi]
  have hpi := Real.pi_gt_three
  exact ⟨le_max_left _ _, max_le (by linarith) (min_le_left _ _)⟩

/-- Counterexample to C5 as stated: from phi = 1, a single rotate with
    deltaY = 1000 clamps phi to exactly 0.12, which is not in the open
    interval (0.12, π - 0.12). -/
theorem c5_phi_open_interval_counterexample :
    (rotateStep ⟨0, 1, 1, (0, 0, 0), (0, 1, 0), (1, 0, 0)⟩ 0 1000).phi = 0.12 ∧
    ¬ (0.12 < (rotateStep ⟨0, 1, 1, (0, 0, 0), (0, 1, 0), (1, 0, 0)⟩ 0 1000).phi) := by
  have hpi := Real.pi_gt_three
  have h : (rotateStep ⟨0, 1, 1, (0, 0, 0), (0, 1, 0), (1, 0, 0)⟩ 0 1000).phi = 0.12 := by
    rw [rotateStep_phi]
    have h1 : (⟨0, 1, 1, (0, 0, 0), (0, 1, 0), (1, 0, 0)⟩ : Camera).phi - 1000 * rotSpeed
        = -5 := by
      show (1 : ℝ) - 1000 * rotSpeed = -5
      rw [rotSpeed]; norm_num
    rw [h1, min_eq_right (by linarith), max_eq_left (by norm_num)]
  exact ⟨h, by rw [h]; norm_num⟩

/-- Claim C5 amended: after any nonempty sequence of rotate operations
    (whatever the deltas), phi lies in the closed interval
    [0.12, π - 0.12]. -/
theorem c5_phi_clamped (c : Camera) (moves : List (ℝ × ℝ)) (h : moves ≠ []) :
    0.12 ≤ (moves.foldl (fun cam m => rotateStep cam m.1 m.2) c).phi ∧
    (moves.foldl (fun cam m => rotateStep cam m.1 m.2) c).phi ≤ Real.pi - 0.12 := by
  induction moves generalizing c with
  | nil => exact absurd rfl h
  | cons m ms ih =>
    rw [List.foldl_cons]
    cases ms with
    | nil => exact rotateStep_phi_bounds c m.1 m.2
    | cons m2 ms2 => exact ih (rotateStep c m.1 m.2) (by simp)

/-- Witness for C5 at one large rotate from phi = 1. -/
theorem c5_phi_clamped_witness :
    ([((0 : ℝ), (1000 : ℝ))] ≠ []) ∧
    (0.12 ≤ (([((0 : ℝ), (1000 : ℝ))]).foldl (fun cam m => rotateStep cam m.1 m.2)
        ⟨0, 1, 1, (0, 0, 0), (0, 1, 0), (1, 0, 0)⟩).phi ∧
      (([((0 : ℝ), (1000 : ℝ))]).foldl (fun cam m => rotateStep cam m.1 m.2)
        ⟨0, 1, 1, (0, 0, 0), (0, 1, 0), (1, 0, 0)⟩).phi ≤ Real.pi - 0.12) :=
  ⟨by simp, c5_phi_clamped ⟨0, 1, 1, (0, 0, 0), (0, 1, 0), (1, 0, 0)⟩ _ (by simp)⟩

/-- Witness for C9 at the nonzero vector (3, 4, 0). -/
theorem c9_normalize_total_witness :
    ((3 : ℝ), (4 : ℝ), (0 : ℝ)) ≠ ((0 : ℝ), (0 : ℝ), (0 : ℝ)) ∧
    vec3Normalize (3, 4, 0) = (3/5, 4/5, 0) := by
  have hne : ((3 : ℝ), (4 : ℝ), (0 : ℝ)) ≠ ((0 : ℝ), (0 : ℝ), (0 : ℝ)) := by
    simp [Prod.ext_iff]
  refine ⟨hne, ?_⟩
  rw [c9_normalize_total.2.2 (3, 4, 0) hne]
  have h5 : hypot3 ((3 : ℝ), 4, 0) = 5 := by
    rw [hypot3, show ((3:ℝ)^2 + 4^2 + 0^2 : ℝ) = 5^2 by norm_num,
      Real.sqrt_sq (by norm_num : (0:ℝ) ≤ 5)]
  rw [h5]
  norm_num

/-! ## Claim C6 -/

lemma zoomOut_distance (c : Camera) :
    (wheelStep c 1).distance = max 0.6 (min 12 (c.distance * 1.08)) := by
  rw [wheelStep_distance, if_pos (by norm_num : (0:ℝ) < 1)]

lemma zoomOut_iterate_le (c : Camera) (h : c.distance = 1) :
    ∀ n, ((fun cam => wheelStep cam 1)^[n] c).distance ≤ 12 := by
  intro n
  cases n with
  | zero => rw [Function.iterate_zero_apply, h]; norm_num
  | succ n =>
    rw [Function.iterate_succ_apply', zoomOut_distance]
    exact max_le (by norm_num) (min_le_left _ _)

lemma zoomOut_iterate_pow (c : Camera) (h : c.distance = 1) :
    ∀ n, n ≤ 32 → ((fun cam => wheelStep cam 1)^[n] c).distance = 1.08 ^ n := by
  intro n
  induction n with
  | zero => intro _; rw [Function.iterate_zero_apply, h, pow_zero]
  | succ n ih =>
    intro hn
    rw [Function.iterate_succ_apply', zoomOut_distance, ih (by omega)]
    have hone : (1:ℝ) ≤ 1.08 ^ (n + 1) := by
      calc (1:ℝ) = 1.08 ^ 0 := (pow_zero _).symm
        _ ≤ 1.08 ^ (n + 1) := pow_le_pow_right (by norm_num) (Nat.zero_le _)
    have h32 : (1.08:ℝ) ^ (n + 1) ≤ 1.08 ^ 32 := pow_le_pow_right (by norm_num) (by omega)
    have hb : (1.08:ℝ) ^ 32 ≤ 12 := by norm_num
    rw [← pow_succ, min_eq_right (by linarith), max_eq_right (by linarith)]

lemma zoomOut_iterate_33 (c : Camera) (h : c.distance = 1) :
    ((fun cam => wheelStep cam 1)^[33] c).distance = 12 := by
  rw [show (33 : ℕ) = 32 + 1 from rfl, Function.iterate_succ_apply', zoomOut_distance,
    zoomOut_iterate_pow c h 32 (le_refl 32), ← pow_succ]
  have hb : (12:ℝ) ≤ 1.08 ^ 33 := by norm_num
  rw [min_eq_left hb, max_eq_right (by norm_num)]

/-- Claim C6: the wheel handler multiplies the distance by the step factor
    and clamps it to [0.6, 12]; iterating the zoom-out step from distance 1
    never exceeds 12 and reaches exactly 12 from step 33 on. -/
theorem c6_zoom_out_clamp (c : Camera) (h : c.distance = 1) :
    (∀ n, ((fun cam => wheelStep cam 1)^[n] c).distance ≤ 12) ∧
    (∀ n, 33 ≤ n → ((fun cam => wheelStep cam 1)^[n] c).distance = 12) := by
  refine ⟨zoomOut_iterate_le c h, ?_⟩
  intro n hn
  obtain ⟨k, rfl⟩ : ∃ k, n = 33 + k := ⟨n - 33, by omega⟩
  clear hn
  induction k with
  | zero => exact zoomOut_iterate_33 c h
  | succ k ih =>
    rw [show 33 + (k + 1) = (33 + k) + 1 by ring, Function.iterate_succ_apply',
      zoomOut_distance, ih]
    norm_num

/-- Witness for C6: from a concrete camera at distance 1, step 33 yields
    exactly 12, and step 40 is still at most 12. -/
theorem c6_zoom_out_clamp_witness :
    ((⟨0, 1, 1, (0, 0, 0), (0, 1, 0), (1, 0, 0)⟩ : Camera).distance = 1) ∧
    ((fun cam => wheelStep cam 1)^[33] ⟨0, 1, 1, (0, 0, 0), (0, 1, 0), (1, 0, 0)⟩).distance
      = 12 ∧
    ((fun cam => wheelStep cam 1)^[40] ⟨0, 1, 1, (0, 0, 0), (0, 1, 0), (1, 0, 0)⟩).distance
      ≤ 12 :=
  ⟨rfl,
    (c6_zoom_out_clamp ⟨0, 1, 1, (0, 0, 0), (0, 1, 0), (1, 0, 0)⟩ rfl).2 33 (le_refl 33),
    (c6_zoom_out_clamp ⟨0, 1, 1, (0, 0, 0), (0, 1, 0), (1, 0, 0)⟩ rfl).1 40⟩

/-! ## Claim C7 (corrected: the second pan recomputes the screen-right
    vector from the eye moved by the first pan, so a horizontal pan and its
    inverse do not return the target; the round trip is exact precisely when
    the recomputed right vector is unchanged, e.g. for vertical pans) -/

lemma vec3Normalize_unitZ : vec3Normalize ((0:ℝ), 0, 1) = ((0:ℝ), 0, 1) := by
  have hh : hypot3 ((0:ℝ), 0, 1) = 1 := by
    rw [hypot3, show ((0:ℝ)^2 + 0^2 + 1^2) = 1 by norm_num, Real.sqrt_one]
  rw [vec3Normalize, normLen, hh, if_neg one_ne_zero]
  norm_num

lemma vec3Normalize_unitY : vec3Normalize ((0:ℝ), 1, 0) = ((0:ℝ), 1, 0) := by
  have hh : hypot3 ((0:ℝ), 1, 0) = 1 := by
    rw [hypot3, show ((0:ℝ)^2 + 1^2 + 0^2) = 1 by norm_num, Real.sqrt_one]
  rw [vec3Normalize, normLen, hh, if_neg one_ne_zero]
  norm_num

lemma sphericalDir_front : sphericalDir 0 (Real.pi / 2) = ((1:ℝ), 0, 0) := by
  rw [sphericalDir]
  simp [Real.sin_pi_div_two, Real.cos_pi_div_two]

lemma panCam_eye : panCam.eye = ((1:ℝ), 0, 0) := rfl

lemma panCam_up : panCam.up = ((0:ℝ), 1, 0) := rfl

lemma panCam_target : panCam.target = ((0:ℝ), 0, 0) := rfl

lemma panCam_speed : panSpeed panCam = 0.0025 := by
  rw [panSpeed, show panCam.distance = 1 from rfl]
  norm_num

lemma panCam_cross : vec3Cross panCam.eye panCam.up = ((0:ℝ), 0, 1) := by
  rw [panCam_eye, panCam_up, vec3Cross]
  norm_num

/-- Claim C7 amended: pan then inverse pan returns the target exactly
    whenever the recomputed screen-right direction after the first pan
    equals the one used by the first pan (in particular for pans with
    dx = 0, where the eye moves parallel to the up axis). -/
theorem c7_pan_inverse_pan (c : Camera) (dx dy : ℝ)
    (h : vec3Normalize (vec3Cross (panStep c dx dy).eye (panStep c dx dy).up)
        = vec3Normalize (vec3Cross c.eye c.up)) :
    (panStep (panStep c dx dy) (-dx) (-dy)).target = c.target := by
  rw [panStep_target, h, panStep_up]
  have hs : panSpeed (panStep c dx dy) = panSpeed c := by
    rw [panSpeed, panStep_distance, panSpeed]
  rw [hs, panStep_target]
  simp only [vec3Add, vec3Scale, Prod.ext_iff]
  refine ⟨by ring, by ring, by ring⟩

lemma panCam_pan1_target : (panStep panCam 300 0).target = ((0:ℝ), 0, -(3/4)) := by
  rw [panStep_target, panCam_cross, panCam_up, panCam_target, panCam_speed,
    vec3Normalize_unitZ, vec3Normalize_unitY]
  simp only [vec3Add, vec3Scale]
  norm_num

lemma panCam_pan1_eye : (panStep panCam 300 0).eye = ((1:ℝ), 0, -(3/4)) := by
  rw [panStep_eye, panCam_pan1_target,
    show panCam.theta = 0 from rfl, show panCam.phi = Real.pi / 2 from rfl,
    show panCam.distance = 1 from rfl, sphericalDir_front]
  simp only [vec3Add, vec3Scale]
  norm_num

/-- Counterexample to C7 as stated: pan by (300, 0) then by (-300, -0) at
    constant distance moves the target from (0,0,0) to (9/20, 0, -3/20) —
    an exact-arithmetic deviation of magnitude ~0.47, far beyond
    floating-point tolerance. -/
theorem c7_pan_inverse_pan_counterexample :
    (panStep (panStep panCam 300 0) (-300) (-0)).target = ((9/20 : ℝ), 0, -(3/20)) ∧
    ((9/20 : ℝ), (0:ℝ), -(3/20 : ℝ)) ≠ panCam.target := by
  constructor
  · rw [panStep_target, panStep_up, panCam_up, panCam_pan1_eye, panCam_pan1_target]
    have hps2 : panSpeed (panStep panCam 300 0) = 0.0025 := by
      rw [panSpeed, panStep_distance, show panCam.distance = 1 from rfl]
      norm_num
    rw [hps2]
    have hcross2 : vec3Cross ((1:ℝ), 0, -(3/4)) ((0:ℝ), 1, 0) = ((3/4 : ℝ), 0, 1) := by
      rw [vec3Cross]; norm_num
    rw [hcross2]
    have hn2 : vec3Normalize ((3/4 : ℝ), 0, 1) = ((3/5 : ℝ), 0, 4/5) := by
      have hh : hypot3 ((3/4 : ℝ), 0, 1) = 5/4 := by
        rw [hypot3, show ((3/4 : ℝ)^2 + 0^2 + 1^2) = (5/4)^2 by norm_num,
          Real.sqrt_sq (by norm_num : (0:ℝ) ≤ 5/4)]
      rw [vec3Normalize, normLen, hh, if_neg (by norm_num)]
      norm_num
    rw [hn2, vec3Normalize_unitY]
    simp only [vec3Add, vec3Scale]
    norm_num
  · rw [panCam_target]
    norm_num [Prod.ext_iff]

lemma panCam_pan2_eye : (panStep panCam 0 4).eye = ((1:ℝ), 1/100, 0) := by
  have ht : (panStep panCam 0 4).target = ((0:ℝ), 1/100, 0) := by
    rw [panStep_target, panCam_cross, panCam_up, panCam_target, panCam_speed,
      vec3Normalize_unitZ, vec3Normalize_unitY]
    simp only [vec3Add, vec3Scale]
    norm_num
  rw [panStep_eye, ht,
    show panCam.theta = 0 from rfl, show panCam.phi = Real.pi / 2 from rfl,
    show panCam.distance = 1 from rfl, sphericalDir_front]
  simp only [vec3Add, vec3Scale]
  norm_num

/-- Witness for C7 at a vertical pan (dx = 0, dy = 4): the recomputed right
    vector is unchanged and the round trip restores the target exactly. -/
theorem c7_pan_inverse_pan_witness :
    (vec3Normalize (vec3Cross (panStep panCam 0 4).eye (panStep panCam 0 4).up)
      = vec3Normalize (vec3Cross panCam.eye panCam.up)) ∧
    (panStep (panStep panCam 0 4) (-0) (-4)).target = panCam.target := by
  have h : vec3Normalize (vec3Cross (panStep panCam 0 4).eye (panStep panCam 0 4).up)
      = vec3Normalize (vec3Cross panCam.eye panCam.up) := by
    have hA : vec3Cross (panStep panCam 0 4).eye (panStep panCam 0 4).up = ((0:ℝ), 0, 1) := by
      rw [panStep_up, panCam_up, panCam_pan2_eye, vec3Cross]
      norm_num
    rw [hA, panCam_cross]
  exact ⟨h, c7_pan_inverse_pan panCam 0 4 h⟩

/-! ## Claim C8 (corrected: with the move (dx = 10, dy = 0), the primary
    drag changes theta but leaves phi unchanged — dy = 0 subtracts nothing
    and the clamp is the identity on an in-range phi) -/

lemma vec3Normalize_ne_zero (v : RVec3) (hv : v ≠ ((0:ℝ), 0, 0)) :
    vec3Normalize v ≠ ((0:ℝ), 0, 0) := by
  obtain ⟨a, b, d⟩ := v
  intro h
  rw [vec3Normalize] at h
  simp only [Prod.mk.injEq] at h
  obtain ⟨h1, h2, h3⟩ := h
  have hl := normLen_ne_zero (a, b, d)
  apply hv
  simp only [Prod.mk.injEq]
  refine ⟨?_, ?_, ?_⟩
  · rcases div_eq_zero_iff.1 h1 with h | h
    · exact h
    · exact absurd h hl
  · rcases div_eq_zero_iff.1 h2 with h | h
    · exact h
    · exact absurd h hl
  · rcases div_eq_zero_iff.1 h3 with h | h
    · exact h
    · exact absurd h hl

/-- Counterexample to C8 as stated: from phi = 1 (inside the clamp range),
    a primary-button pointer-down followed by a move of (10, 0) leaves phi
    exactly unchanged, contradicting "changes theta and phi". -/
theorem c8_gesture_counterexample :
    (movePointer (beginPointer ⟨none, false, false, 0, 0,
        ⟨0, 1, 1, (0, 0, 0), (0, 1, 0), (1, 0, 0)⟩⟩ 1 0 false 0 0) 1 10 0).camera.phi
      = (⟨0, 1, 1, (0, 0, 0), (0, 1, 0), (1, 0, 0)⟩ : Camera).phi := by
  have hb : beginPointer ⟨none, false, false, 0, 0,
      ⟨0, 1, 1, (0, 0, 0), (0, 1, 0), (1, 0, 0)⟩⟩ 1 0 false 0 0
      = ⟨some 1, true, false, 0, 0, ⟨0, 1, 1, (0, 0, 0), (0, 1, 0), (1, 0, 0)⟩⟩ := rfl
  have hm : movePointer (⟨some 1, true, false, 0, 0,
      ⟨0, 1, 1, (0, 0, 0), (0, 1, 0), (1, 0, 0)⟩⟩ : ViewerState) 1 10 0
      = ⟨some 1, true, false, 10, 0,
          rotateStep ⟨0, 1, 1, (0, 0, 0), (0, 1, 0), (1, 0, 0)⟩ (10 - 0) (0 - 0)⟩ := rfl
  rw [hb, hm]
  show (rotateStep ⟨0, 1, 1, (0, 0, 0), (0, 1, 0), (1, 0, 0)⟩ (10 - 0) (0 - 0)).phi = 1
  rw [rotateStep_phi]
  have hpi := Real.pi_gt_three
  rw [show (⟨0, 1, 1, (0, 0, 0), (0, 1, 0), (1, 0, 0)⟩ : Camera).phi - (0 - 0) * rotSpeed
      = 1 by show (1:ℝ) - (0 - 0) * rotSpeed = 1; ring,
    min_eq_right (by linarith), max_eq_right (by norm_num)]

/-- Claim C8 amended: from any idle interaction state over a camera with
    in-range phi, nondegenerate eye×up and nonzero distance, a
    secondary-button pointer-down followed by a (10, 0) move changes the
    target but neither theta nor phi, while a primary-button pointer-down
    followed by the same move changes theta but neither phi (dy = 0) nor
    the target. -/
theorem c8_gesture_roles (c : Camera) (pid : ℤ) (x y : ℝ)
    (h1 : 0.12 ≤ c.phi) (h2 : c.phi ≤ Real.pi - 0.12)
    (h3 : vec3Cross c.eye c.up ≠ ((0:ℝ), 0, 0))
    (h4 : c.distance ≠ 0) :
    ((movePointer (beginPointer ⟨none, false, false, 0, 0, c⟩ pid 2 false x y) pid
        (x + 10) y).camera.target ≠ c.target ∧
      (movePointer (beginPointer ⟨none, false, false, 0, 0, c⟩ pid 2 false x y) pid
        (x + 10) y).camera.theta = c.theta ∧
      (movePointer (beginPointer ⟨none, false, false, 0, 0, c⟩ pid 2 false x y) pid
        (x + 10) y).camera.phi = c.phi) ∧
    ((movePointer (beginPointer ⟨none, false, false, 0, 0, c⟩ pid 0 false x y) pid
        (x + 10) y).camera.theta ≠ c.theta ∧
      (movePointer (beginPointer ⟨none, false, false, 0, 0, c⟩ pid 0 false x y) pid
        (x + 10) y).camera.phi = c.phi ∧
      (movePointer (beginPointer ⟨none, false, false, 0, 0, c⟩ pid 0 false x y) pid
        (x + 10) y).camera.target = c.target) := by
  have hb2 : beginPointer ⟨none, false, false, 0, 0, c⟩ pid 2 false x y
      = ⟨some pid, false, true, x, y, c⟩ := rfl
  have hb0 : beginPointer ⟨none, false, false, 0, 0, c⟩ pid 0 false x y
      = ⟨some pid, true, false, x, y, c⟩ := rfl
  have hm2 : movePointer (⟨some pid, false, true, x, y, c⟩ : ViewerState) pid (x + 10) y
      = ⟨some pid, false, true, x + 10, y, panStep c (x + 10 - x) (y - y)⟩ := by
    unfold movePointer
    rw [if_pos rfl]
    rfl
  have hm0 : movePointer (⟨some pid, true, false, x, y, c⟩ : ViewerState) pid (x + 10) y
      = ⟨some pid, true, false, x + 10, y, rotateStep c (x + 10 - x) (y - y)⟩ := by
    unfold movePointer
    rw [if_pos rfl]
    rfl
  have hx : x + 10 - x = (10:ℝ) := by ring
  have hy : y - y = (0:ℝ) := by ring
  rw [hb2, hb0, hm2, hm0, hx, hy]
  have hs_ne : panSpeed c ≠ 0 := by
    rw [panSpeed]
    exact mul_ne_zero (by norm_num) h4
  have hr_ne := vec3Normalize_ne_zero (vec3Cross c.eye c.up) h3
  refine ⟨⟨?_, panStep_theta c 10 0, panStep_phi c 10 0⟩, ?_, ?_, rotateStep_target c 10 0⟩
  · show (panStep c 10 0).target ≠ c.target
    rw [panStep_target]
    intro hEq
    simp only [vec3Add, vec3Scale, Prod.ext_iff] at hEq
    obtain ⟨e1, e2, e3⟩ := hEq
    have hval : (-10 : ℝ) * panSpeed c ≠ 0 := mul_ne_zero (by norm_num) hs_ne
    apply hr_ne
    simp only [Prod.ext_iff]
    refine ⟨?_, ?_, ?_⟩
    · rcases mul_eq_zero.1 (show (vec3Normalize (vec3Cross c.eye c.up)).1
          * (-10 * panSpeed c) = 0 by nlinarith [e1]) with h | h
      · exact h
      · exact absurd h hval
    · rcases mul_eq_zero.1 (show (vec3Normalize (vec3Cross c.eye c.up)).2.1
          * (-10 * panSpeed c) = 0 by nlinarith [e2]) with h | h
      · exact h
      · exact absurd h hval
    · rcases mul_eq_zero.1 (show (vec3Normalize (vec3Cross c.eye c.up)).2.2
          * (-10 * panSpeed c) = 0 by nlinarith [e3]) with h | h
      · exact h
      · exact absurd h hval
  · show (rotateStep c 10 0).theta ≠ c.theta
    rw [rotateStep_theta]
    have : (10:ℝ) * rotSpeed = 0.06 := by rw [rotSpeed]; norm_num
    intro hEq
    rw [this] at hEq
    have : (0.06 : ℝ) = 0 := by linarith
    norm_num at this
  · show (rotateStep c 10 0).phi = c.phi
    rw [rotateStep_phi, zero_mul, sub_zero, min_eq_right h2, max_eq_right h1]

/-- Witness for C8 at a concrete in-range camera: the secondary-button pan
    move really does change the target. -/
theorem c8_gesture_roles_witness :
    (0.12 ≤ (⟨0, 1, 1, (0, 0, 0), (0, 1, 0), (1, 0, 0)⟩ : Camera).phi) ∧
    ((⟨0, 1, 1, (0, 0, 0), (0, 1, 0), (1, 0, 0)⟩ : Camera).phi ≤ Real.pi - 0.12) ∧
    (vec3Cross (⟨0, 1, 1, (0, 0, 0), (0, 1, 0), (1, 0, 0)⟩ : Camera).eye
      (⟨0, 1, 1, (0, 0, 0), (0, 1, 0), (1, 0, 0)⟩ : Camera).up ≠ ((0:ℝ), 0, 0)) ∧
    ((⟨0, 1, 1, (0, 0, 0), (0, 1, 0), (1, 0, 0)⟩ : Camera).distance ≠ 0) ∧
    (movePointer (beginPointer ⟨none, false, false, 0, 0,
        ⟨0, 1, 1, (0, 0, 0), (0, 1, 0), (1, 0, 0)⟩⟩ 7 2 false 3 5) 7
      (3 + 10) 5).camera.target ≠ (⟨0, 1, 1, (0, 0, 0), (0, 1, 0), (1, 0, 0)⟩ : Camera).target := by
  have hA : (0.12 : ℝ) ≤ 1 := by norm_num
  have hB : (1 : ℝ) ≤ Real.pi - 0.12 := by
    have := Real.pi_gt_three
    linarith
  have hC : vec3Cross (⟨0, 1, 1, (0, 0, 0), (0, 1, 0), (1, 0, 0)⟩ : Camera).eye
      (⟨0, 1, 1, (0, 0, 0), (0, 1, 0), (1, 0, 0)⟩ : Camera).up ≠ ((0:ℝ), 0, 0) := by
    show vec3Cross ((1:ℝ), 0, 0) ((0:ℝ), 1, 0) ≠ ((0:ℝ), 0, 0)
    rw [vec3Cross]
    norm_num [Prod.ext_iff]
  have hD : (⟨0, 1, 1, (0, 0, 0), (0, 1, 0), (1, 0, 0)⟩ : Camera).distance ≠ 0 := by
    show (1:ℝ) ≠ 0
    norm_num
  exact ⟨hA, hB, hC, hD,
    (c8_gesture_roles ⟨0, 1, 1, (0, 0, 0), (0, 1, 0), (1, 0, 0)⟩ 7 3 5 hA hB hC hD).1.1⟩

end WanShiTong
